import Mathlib

/-!
Verification of the supafirehose load generator against its specification.

Shallow embedding of the relevant Go source:
  * `src/metrics/collector.go`  — metrics collector (window counters, totals,
    error rate, recent-errors ring),
  * `Controller` (load controller) — `Start`, `UpdateConfig`, `SetScenario`,
  * `CustomScenario` (dynamic scenario) — table-name splitting, query
    building, id-source selection, read/write id logic,
  * `GenerateValue` — random value generator dispatch.

Go `int64` counters are modelled as `Nat`: they are only ever incremented by
one per recorded event, so 64-bit overflow is unreachable in any run the
claims quantify over and is not modelled.  Wall-clock instants are modelled
as `Int` nanoseconds (Go `time.Time`/`time.Duration` granularity).
Randomness is modelled by passing the drawn values as explicit arguments.
-/

namespace Supafirehose

/-! ## Metrics collector: window counters and totals (`collector.go`) -/

/-- Collector counter state: the four window counters (reset at each
snapshot) and the two monotonic totals, as in the Go `Collector` struct. -/
structure ColState where
  readCount : Nat
  writeCount : Nat
  readErrors : Nat
  writeErrors : Nat
  totalQueries : Nat
  totalErrors : Nat
deriving DecidableEq, Repr

/-- The initial counter state of the collector (`NewCollector`). -/
def ColState.init : ColState :=
  ⟨0, 0, 0, 0, 0, 0⟩

/-- One emitted `MetricsSnapshot`, restricted to the counter-derived fields.
`readCount`/`writeCount` are the swapped-out window counters (reported as
QPS = count / interval), `readErrs`/`writeErrs` the window error counters,
`totQ`/`totE` the monotonic totals, `errRate` the computed error rate. -/
structure Snap where
  readCount : Nat
  writeCount : Nat
  readErrs : Nat
  writeErrs : Nat
  readQPS : ℚ
  writeQPS : ℚ
  totQ : Nat
  totE : Nat
  errRate : ℚ
deriving DecidableEq, Repr

/-- Model of `Collector.RecordRead`: bump the read window counter and the total,
and on error bump the read error counter and the error total. -/
def recordRead (s : ColState) (isErr : Bool) : ColState :=
  { s with
    readCount := s.readCount + 1
    totalQueries := s.totalQueries + 1
    readErrors := s.readErrors + (if isErr then 1 else 0)
    totalErrors := s.totalErrors + (if isErr then 1 else 0) }

/-- Model of `Collector.RecordWrite`: bump the write window counter and the total,
and on error bump the write error counter and the error total. -/
def recordWrite (s : ColState) (isErr : Bool) : ColState :=
  { s with
    writeCount := s.writeCount + 1
    totalQueries := s.totalQueries + 1
    writeErrors := s.writeErrors + (if isErr then 1 else 0)
    totalErrors := s.totalErrors + (if isErr then 1 else 0) }

/-- Model of `Collector.Snapshot`: swap the four window counters to zero, read the
totals, compute QPS over the supplied interval and the error rate
(`errors / queries` when `queries > 0`, else `0`).  Returns the reset
state together with the emitted snapshot. -/
def snapshot (s : ColState) (intervalSec : ℚ) : ColState × Snap :=
  ({ s with readCount := 0, writeCount := 0, readErrors := 0, writeErrors := 0 },
   { readCount := s.readCount
     writeCount := s.writeCount
     readErrs := s.readErrors
     writeErrs := s.writeErrors
     readQPS := (s.readCount : ℚ) / intervalSec
     writeQPS := (s.writeCount : ℚ) / intervalSec
     totQ := s.totalQueries
     totE := s.totalErrors
     errRate := if s.totalQueries > 0 then (s.totalErrors : ℚ) / (s.totalQueries : ℚ) else 0 })

/-- A collector event: a recorded read, a recorded write, or a snapshot
taken over the given interval.  (`Reset` is deliberately absent: the claims
quantify over sequences with no reset.) -/
inductive ColEv where
  | rdRec (isErr : Bool)
  | wrRec (isErr : Bool)
  | snapEv (intervalSec : ℚ)
deriving DecidableEq, Repr

/-- Apply one event to the collector state, appending any emitted snapshot. -/
def colStep (p : ColState × List Snap) (e : ColEv) : ColState × List Snap :=
  match e with
  | .rdRec isErr => (recordRead p.1 isErr, p.2)
  | .wrRec isErr => (recordWrite p.1 isErr, p.2)
  | .snapEv iv =>
      let r := snapshot p.1 iv
      (r.1, p.2 ++ [r.2])

/-- Run a sequence of collector events from the initial collector state,
collecting the emitted snapshots in order. -/
def colRun (evs : List ColEv) : ColState × List Snap :=
  evs.foldl colStep (ColState.init, [])

/-- Sum over a snapshot list of the read window count plus the write
window count. -/
def winSum (snaps : List Snap) : Nat :=
  (snaps.map (fun sn => sn.readCount + sn.writeCount)).sum

/-- Consistency of the error rate of a snapshot with its own totals. -/
def SnapOK (sn : Snap) : Prop :=
  sn.errRate = if 0 < sn.totQ then (sn.totE : ℚ) / (sn.totQ : ℚ) else 0

/-- Collector run invariant: the window sums of the emitted snapshots plus
the live window counters account exactly for the monotonic total; the
total of the last emitted snapshot equals the window sum so far; and every
emitted snapshot has a consistent error rate. -/
def ColInv (p : ColState × List Snap) : Prop :=
  winSum p.2 + p.1.readCount + p.1.writeCount = p.1.totalQueries
    ∧ (∀ l, p.2.getLast? = some l → l.totQ = winSum p.2)
    ∧ (∀ sn ∈ p.2, SnapOK sn)

lemma winSum_append_single (l : List Snap) (sn : Snap) :
    winSum (l ++ [sn]) = winSum l + (sn.readCount + sn.writeCount) := by
  simp [winSum]

lemma colInv_step (p : ColState × List Snap) (e : ColEv) (h : ColInv p) :
    ColInv (colStep p e) := by
  obtain ⟨h1, h2, h3⟩ := h
  cases e with
  | rdRec isErr =>
      refine ⟨?_, h2, h3⟩
      simp only [colStep, recordRead]
      omega
  | wrRec isErr =>
      refine ⟨?_, h2, h3⟩
      simp only [colStep, recordWrite]
      omega
  | snapEv iv =>
      refine ⟨?_, ?_, ?_⟩
      · simp only [colStep, snapshot, winSum_append_single]
        omega
      · intro l hl
        simp only [colStep, snapshot] at hl ⊢
        rw [List.getLast?_concat] at hl
        cases hl
        rw [winSum_append_single]
        dsimp only
        omega
      · intro sn hsn
        simp only [colStep, snapshot, List.mem_append, List.mem_singleton] at hsn
        rcases hsn with hsn | rfl
        · exact h3 sn hsn
        · simp only [SnapOK]

lemma colInv_foldl (evs : List ColEv) (p : ColState × List Snap) (h : ColInv p) :
    ColInv (evs.foldl colStep p) := by
  induction evs generalizing p with
  | nil => exact h
  | cons e evs ih => exact ih _ (colInv_step p e h)

lemma colInv_run (evs : List ColEv) : ColInv (colRun evs) :=
  colInv_foldl evs _ ⟨rfl, by simp [winSum], by simp⟩

/-- C1: in any sequence of recorded reads and writes and snapshots with no
reset, the sum over all emitted snapshots of the read window count plus the
write window count equals the `totals.queries` reported by the last
snapshot: every recorded operation contributes exactly once to a window
count and exactly once to the monotonic total. -/
theorem collector_window_sums_eq_last_totals (evs : List ColEv) (last : Snap)
    (h : (colRun evs).2.getLast? = some last) :
    winSum (colRun evs).2 = last.totQ :=
  ((colInv_run evs).2.1 last h).symm

theorem collector_window_sums_eq_last_totals_witness :
    winSum (colRun [ColEv.rdRec false, ColEv.wrRec false, ColEv.snapEv 1,
        ColEv.rdRec false, ColEv.snapEv 1]).2
      = (Snap.mk 1 0 0 0 1 0 3 0 0).totQ :=
  collector_window_sums_eq_last_totals
    [ColEv.rdRec false, ColEv.wrRec false, ColEv.snapEv 1,
        ColEv.rdRec false, ColEv.snapEv 1]
    (Snap.mk 1 0 0 0 1 0 3 0 0)
    (by norm_num [colRun, colStep, snapshot, recordRead, recordWrite, ColState.init])

/-- C2: every snapshot emitted during a collector run reports
`totals.error_rate = totals.errors / totals.queries` when
`totals.queries > 0` and `0` when `totals.queries = 0`. -/
theorem collector_error_rate_exact (evs : List ColEv) (sn : Snap)
    (h : sn ∈ (colRun evs).2) :
    sn.errRate = if 0 < sn.totQ then (sn.totE : ℚ) / (sn.totQ : ℚ) else 0 :=
  (colInv_run evs).2.2 sn h

theorem collector_error_rate_exact_witness :
    (Snap.mk 1 0 1 0 1 0 1 1 1).errRate
      = if 0 < (Snap.mk 1 0 1 0 1 0 1 1 1).totQ
        then ((Snap.mk 1 0 1 0 1 0 1 1 1).totE : ℚ) / ((Snap.mk 1 0 1 0 1 0 1 1 1).totQ : ℚ)
        else 0 :=
  collector_error_rate_exact [ColEv.rdRec true, ColEv.snapEv 1]
    (Snap.mk 1 0 1 0 1 0 1 1 1)
    (by norm_num [colRun, colStep, snapshot, recordRead, ColState.init])

/-! ## Recent-errors ring (`Collector.addError`) -/

/-- Recent-errors ring state: the ring entries (admission timestamp in
nanoseconds, message) and the time of the last admitted error
(`lastErrorTime`). -/
structure ErrRing where
  ring : List (Int × String)
  lastErrTime : Int
deriving DecidableEq, Repr

/-- Ten seconds in nanoseconds (`10*time.Second`). -/
def tenSecNs : Int := 10000000000

/-- The zero `time.Time` of Go (January 1, year 1 UTC) in nanoseconds since the
Unix epoch: the initial `lastErrorTime` of the collector. -/
def goZeroTimeNs : Int := -62135596800000000000

/-- The initial ring state of the collector (`NewCollector`). -/
def ErrRing.init : ErrRing :=
  ⟨[], goZeroTimeNs⟩

/-- The trim step of `addError`: keep only the last `maxRecentErrors = 10`
entries. -/
def trim10 (r : List (Int × String)) : List (Int × String) :=
  if r.length > 10 then r.drop (r.length - 10) else r

/-- Model of `Collector.addError` evaluated at wall-clock instant `now`: if less
than ten seconds have passed since the last admitted error the ring is
left untouched (the error is still counted by `recordRead`/`recordWrite`,
which bump the error counters unconditionally); otherwise the entry is
appended and the ring trimmed to the last 10 entries. -/
def addErrorM (s : ErrRing) (now : Int) (msg : String) : ErrRing :=
  if now - s.lastErrTime < tenSecNs then s
  else { ring := trim10 (s.ring ++ [(now, msg)]), lastErrTime := now }

/-- Feed a sequence of timestamped error messages through `addError`
starting from the initial ring state of the collector. -/
def errRun (tr : List (Int × String)) : ErrRing :=
  tr.foldl (fun s e => addErrorM s e.1 e.2) ErrRing.init

lemma trim10_length_le (r : List (Int × String)) (h : r.length ≤ 11) :
    (trim10 r).length ≤ 10 := by
  unfold trim10
  split
  · simp only [List.length_drop]
    omega
  · omega

lemma addErrorM_length_le (s : ErrRing) (now : Int) (msg : String)
    (h : s.ring.length ≤ 10) : (addErrorM s now msg).ring.length ≤ 10 := by
  unfold addErrorM
  split
  · exact h
  · exact trim10_length_le _ (by simp; omega)

lemma errRun_length_le (tr : List (Int × String)) :
    (errRun tr).ring.length ≤ 10 := by
  suffices h : ∀ s : ErrRing, s.ring.length ≤ 10 →
      (tr.foldl (fun s e => addErrorM s e.1 e.2) s).ring.length ≤ 10 by
    exact h ErrRing.init (by simp [ErrRing.init])
  induction tr with
  | nil => intro s hs; exact hs
  | cons e tr ih =>
      intro s hs
      exact ih _ (addErrorM_length_le s e.1 e.2 hs)

/-- C7 counterexample: an error arriving exactly ten seconds after the
previously admitted one is admitted to the ring, even though the previous
admitted error is not strictly older than ten seconds — so admission is
not restricted to "older than ten seconds". -/
theorem errRing_admits_at_exactly_ten_seconds :
    (addErrorM ⟨[(0, "read: a")], 0⟩ tenSecNs "read: b").ring.length = 2
      ∧ ¬ (tenSecNs - (0 : Int) > tenSecNs) := by
  constructor
  · rfl
  · decide

/-- C7 (amended): for every sequence of recorded errors the recent-errors
ring never holds more than 10 entries; a new error is admitted to the ring
exactly when the previously admitted error is at least ten seconds old
(the ten-second boundary itself is admitted), and an error arriving sooner
leaves the ring unchanged — it is dropped from the ring while the error
counters (`recordRead`/`recordWrite`) still count it unconditionally. -/
theorem errRing_bounded_and_rate_limited (tr : List (Int × String))
    (s : ErrRing) (now : Int) (msg : String) :
    (errRun tr).ring.length ≤ 10
      ∧ (tenSecNs ≤ now - s.lastErrTime →
          addErrorM s now msg = ⟨trim10 (s.ring ++ [(now, msg)]), now⟩)
      ∧ (now - s.lastErrTime < tenSecNs → addErrorM s now msg = s) := by
  refine ⟨errRun_length_le tr, ?_, ?_⟩
  · intro h
    unfold addErrorM
    rw [if_neg (by omega)]
  · intro h
    unfold addErrorM
    rw [if_pos h]

theorem errRing_bounded_and_rate_limited_witness :
    (errRun [(20000000000, "read: a"), (21000000000, "read: b")]).ring.length ≤ 10
      ∧ addErrorM ⟨[], 0⟩ 20000000000 "write: m"
          = ⟨trim10 ([] ++ [((20000000000 : Int), "write: m")]), 20000000000⟩
      ∧ addErrorM ⟨[(0, "read: a")], 0⟩ 5 "write: m" = ⟨[(0, "read: a")], 0⟩ :=
  ⟨(errRing_bounded_and_rate_limited [(20000000000, "read: a"), (21000000000, "read: b")]
        ⟨[], 0⟩ 0 "").1,
   (errRing_bounded_and_rate_limited [] ⟨[], 0⟩ 20000000000 "write: m").2.1 (by decide),
   (errRing_bounded_and_rate_limited [] ⟨[(0, "read: a")], 0⟩ 5 "write: m").2.2 (by decide)⟩

/-! ## Load controller (`Controller` in package `load`) -/

/-- The load configuration record (`load.Config`). -/
structure LoadConfig where
  connections : Int
  readQPS : Int
  writeQPS : Int
  churnRate : Int
  scenario : String
  customTable : String
deriving DecidableEq, Repr

/-- The scenario reference held by the controller: either a registered built-in
scenario (shared registry entry) or a freshly created dynamic
(`CustomScenario`) instance for the given declared table name. -/
inductive ScenarioRef where
  | builtin (name : String)
  | customScen (table : String)
deriving DecidableEq, Repr

/-- Names registered by `NewRegistry`: the four built-in scenarios. -/
def registryNames : List String := ["simple", "jsonb", "wide", "fk"]

/-- Model of `Registry.Get`: look a scenario up by name. -/
def registryGet (name : String) : Option ScenarioRef :=
  if name ∈ registryNames then some (.builtin name) else none

/-- Controller state relevant to config updates: the running flag, the
declared config, the scenario reference, and the two rate limiters as
(limit, burst) pairs. -/
structure CtrlState where
  running : Bool
  config : LoadConfig
  scenario : ScenarioRef
  readLim : Int × Int
  writeLim : Int × Int
deriving DecidableEq, Repr

/-- The scenario swap performed by `Controller.UpdateConfig`: only when the
scenario identity (name or custom table) changed; `"custom"` creates a
fresh dynamic scenario; a non-empty name is looked up in the registry and
swapped in only when found — an unregistered name (and the empty name)
leaves the current scenario in place. -/
def updScenario (old : ScenarioRef) (oldCfg cfg : LoadConfig) : ScenarioRef :=
  if oldCfg.scenario ≠ cfg.scenario ∨ oldCfg.customTable ≠ cfg.customTable then
    if cfg.scenario = "custom" then .customScen cfg.customTable
    else if cfg.scenario ≠ "" then
      match registryGet cfg.scenario with
      | some s => s
      | none => old
    else old
  else old

/-- Model of `Controller.SetScenario`: `"custom"` creates a fresh dynamic scenario;
any other name is looked up in the registry with a fallback to the simple
scenario when not registered. -/
def setScenario (name customTable : String) : ScenarioRef :=
  if name = "custom" then .customScen customTable
  else
    match registryGet name with
    | some s => s
    | none => .builtin "simple"

/-- Model of `Controller.UpdateConfig`: install the new config, retune both rate
limiters to the new QPS with burst `max(qps, 1)`, swap the scenario if its
identity changed, and report whether the worker fleet is restarted
(stop then start): exactly when the controller is running and the
connection count, churn rate, or scenario identity changed. -/
def updateConfig (st : CtrlState) (cfg : LoadConfig) : CtrlState × Bool :=
  let oldCfg := st.config
  let st' : CtrlState :=
    { st with
      config := cfg
      readLim := (cfg.readQPS, max cfg.readQPS 1)
      writeLim := (cfg.writeQPS, max cfg.writeQPS 1)
      scenario := updScenario st.scenario oldCfg cfg }
  let needsRestart := st.running
      && (decide (oldCfg.connections ≠ cfg.connections)
        || decide (oldCfg.churnRate ≠ cfg.churnRate)
        || decide (oldCfg.scenario ≠ cfg.scenario)
        || decide (oldCfg.customTable ≠ cfg.customTable))
  (st', needsRestart)

/-- C4: every update-config call retunes the read and write limiters to
the new QPS with burst `max(qps, 1)`, and restarts the worker fleet
exactly when the controller is running and the connection count, churn
rate, or scenario identity (name or custom table) changed; in particular a
change that alters only read or write QPS leaves the worker fleet
untouched. -/
theorem updateConfig_retunes_limiters_and_restarts_iff_shape_changed
    (st : CtrlState) (cfg : LoadConfig) :
    (updateConfig st cfg).1.readLim = (cfg.readQPS, max cfg.readQPS 1)
      ∧ (updateConfig st cfg).1.writeLim = (cfg.writeQPS, max cfg.writeQPS 1)
      ∧ ((updateConfig st cfg).2 = true ↔
          st.running = true
            ∧ (st.config.connections ≠ cfg.connections
              ∨ st.config.churnRate ≠ cfg.churnRate
              ∨ st.config.scenario ≠ cfg.scenario
              ∨ st.config.customTable ≠ cfg.customTable))
      ∧ (st.config.connections = cfg.connections →
          st.config.churnRate = cfg.churnRate →
          st.config.scenario = cfg.scenario →
          st.config.customTable = cfg.customTable →
          (updateConfig st cfg).2 = false) := by
  refine ⟨rfl, rfl, ?_, ?_⟩
  · simp [updateConfig, Bool.and_eq_true, Bool.or_eq_true, decide_eq_true_eq, or_assoc]
  · intro h1 h2 h3 h4
    simp [updateConfig, h1, h2, h3, h4]

theorem updateConfig_retunes_limiters_witness :
    (updateConfig
        ⟨true, ⟨10, 100, 10, 0, "simple", ""⟩, .builtin "simple", (100, 100), (10, 10)⟩
        ⟨10, 500, 50, 0, "simple", ""⟩).1.readLim = (500, max 500 1)
      ∧ (updateConfig
          ⟨true, ⟨10, 100, 10, 0, "simple", ""⟩, .builtin "simple", (100, 100), (10, 10)⟩
          ⟨10, 500, 50, 0, "simple", ""⟩).2 = false :=
  ⟨(updateConfig_retunes_limiters_and_restarts_iff_shape_changed
      ⟨true, ⟨10, 100, 10, 0, "simple", ""⟩, .builtin "simple", (100, 100), (10, 10)⟩
      ⟨10, 500, 50, 0, "simple", ""⟩).1,
   (updateConfig_retunes_limiters_and_restarts_iff_shape_changed
      ⟨true, ⟨10, 100, 10, 0, "simple", ""⟩, .builtin "simple", (100, 100), (10, 10)⟩
      ⟨10, 500, 50, 0, "simple", ""⟩).2.2.2 rfl rfl rfl rfl⟩

/-- Reader count of `Controller.Start`: `(connections * 80) / 100` under Go
integer division (truncation, `Int.tdiv`), raised to 1 when it is below 1
and there is at least one connection. -/
def numReaders (connections : Int) : Int :=
  let n := (connections * 80).tdiv 100
  if n < 1 ∧ 0 < connections then 1 else n

/-- Writer count of `Controller.Start`: the remaining connections, clamped at
zero. -/
def numWriters (connections : Int) : Int :=
  let w := connections - numReaders connections
  if w < 0 then 0 else w

/-- Per-connection churn rate of `Controller.Start`: `churn / connections`
when both are positive, otherwise `0` (in particular no division by zero
when `connections = 0`). -/
def perConnChurn (connections churn : Int) : ℚ :=
  if 0 < connections ∧ 0 < churn then (churn : ℚ) / (connections : ℚ) else 0

lemma tdiv_80_eq_floor (n : Int) (hn : 0 ≤ n) :
    (n * 80).tdiv 100 = ⌊(n : ℚ) * (8 / 10)⌋ := by
  have h1 : (n * 80).tdiv 100 = (n * 80) / 100 :=
    Int.tdiv_eq_ediv (by positivity) (by norm_num)
  have h2 : (n : ℚ) * (8 / 10) = ((n * 80 : ℤ) : ℚ) / ((100 : ℕ) : ℚ) := by
    push_cast
    ring
  rw [h1, h2, Rat.floor_intCast_div_natCast]
  norm_num

/-- C5: on start with `n ≥ 0` declared connections and churn rate `c ≥ 0`,
the controller spawns `readers = ⌊n × 0.8⌋` raised to 1 when `n > 0`,
`writers = n − readers` (never negative), and hands each worker the
per-connection churn rate `c / n` when `n > 0` and `c > 0` and `0`
otherwise — in particular no division by zero when `n = 0`. -/
theorem start_worker_split_and_churn (n c : Int) (hn : 0 ≤ n) (_hc : 0 ≤ c) :
    numReaders n = (if 0 < n then max ⌊(n : ℚ) * (8 / 10)⌋ 1 else 0)
      ∧ numWriters n = n - numReaders n
      ∧ 0 ≤ numWriters n
      ∧ numReaders n ≤ n
      ∧ perConnChurn n c = (if 0 < n ∧ 0 < c then (c : ℚ) / (n : ℚ) else 0)
      ∧ (n = 0 → perConnChurn n c = 0) := by
  have hfl := tdiv_80_eq_floor n hn
  have hle : (n * 80).tdiv 100 ≤ n := by
    rw [Int.tdiv_eq_ediv (by positivity) (by norm_num)]
    have : n * 80 / 100 ≤ n * 100 / 100 :=
      Int.ediv_le_ediv (by norm_num) (by nlinarith)
    simpa using this
  have hge : 0 ≤ (n * 80).tdiv 100 := by
    rw [Int.tdiv_eq_ediv (by positivity) (by norm_num)]
    positivity
  have hreaders : numReaders n = (if 0 < n then max ⌊(n : ℚ) * (8 / 10)⌋ 1 else 0) := by
    unfold numReaders
    rcases lt_or_le 0 n with hpos | hnonpos
    · rw [if_pos hpos, ← hfl]
      rcases lt_or_le ((n * 80).tdiv 100) 1 with hlt | hge1
      · rw [if_pos ⟨hlt, hpos⟩]
        omega
      · rw [if_neg (by omega)]
        omega
    · have hzero : n = 0 := le_antisymm hnonpos hn
      subst hzero
      norm_num
  have hrle : numReaders n ≤ n := by
    rw [hreaders]
    rcases lt_or_le 0 n with hpos | hnonpos
    · rw [if_pos hpos, ← hfl]
      omega
    · rw [if_neg (not_lt.mpr hnonpos)]
      exact hn
  have hrge : 0 ≤ numReaders n := by
    rw [hreaders]
    rcases lt_or_le 0 n with hpos | hnonpos
    · rw [if_pos hpos, ← hfl]
      omega
    · rw [if_neg (not_lt.mpr hnonpos)]
  refine ⟨hreaders, ?_, ?_, hrle, rfl, ?_⟩
  · unfold numWriters
    rw [if_neg (by omega)]
  · unfold numWriters
    rw [if_neg (by omega)]
    omega
  · intro h0
    subst h0
    simp [perConnChurn]

theorem start_worker_split_and_churn_witness :
    numReaders 5 = (if (0 : Int) < 5 then max ⌊((5 : Int) : ℚ) * (8 / 10)⌋ 1 else 0)
      ∧ numWriters 5 = 5 - numReaders 5
      ∧ 0 ≤ numWriters 5
      ∧ numReaders 5 ≤ 5
      ∧ perConnChurn 5 2 = (if (0 : Int) < 5 ∧ (0 : Int) < 2 then ((2 : Int) : ℚ) / ((5 : Int) : ℚ) else 0)
      ∧ ((5 : Int) = 0 → perConnChurn 5 2 = 0) :=
  start_worker_split_and_churn 5 2 (by norm_num) (by norm_num)

/-- C6 counterexample: an update-config call that changes the scenario
name to the unregistered non-custom name `"bogus"` leaves the scenario of the controller at its previous value (`jsonb`) instead of falling back to the
simple scenario. -/
theorem updateConfig_unregistered_name_keeps_old_scenario :
    (updateConfig
        ⟨false, ⟨10, 100, 10, 0, "jsonb", ""⟩, .builtin "jsonb", (100, 100), (10, 10)⟩
        ⟨10, 100, 10, 0, "bogus", ""⟩).1.scenario = .builtin "jsonb"
      ∧ registryGet "bogus" = none
      ∧ ScenarioRef.builtin "jsonb" ≠ ScenarioRef.builtin "simple" := by
  refine ⟨rfl, rfl, ?_⟩
  decide

/-- C6 (amended): when an update-config call changes the scenario identity,
the name `"custom"` always produces a freshly created dynamic scenario for
the declared table; a non-custom registered name swaps in the registry entry; an unregistered (or empty) name leaves the
scenario of the controller unchanged.  The fallback to the simple scenario exists only in
`SetScenario`, which is also characterized here. -/
theorem updateConfig_scenario_swap (st : CtrlState) (cfg : LoadConfig)
    (name table : String)
    (hch : st.config.scenario ≠ cfg.scenario ∨ st.config.customTable ≠ cfg.customTable) :
    (updateConfig st cfg).1.scenario
        = (if cfg.scenario = "custom" then .customScen cfg.customTable
           else if cfg.scenario ∈ registryNames then .builtin cfg.scenario
           else st.scenario)
      ∧ setScenario name table
        = (if name = "custom" then .customScen table
           else if name ∈ registryNames then .builtin name
           else .builtin "simple") := by
  constructor
  · show updScenario st.scenario st.config cfg = _
    unfold updScenario
    rw [if_pos hch]
    by_cases h1 : cfg.scenario = "custom"
    · rw [if_pos h1, if_pos h1]
    · rw [if_neg h1, if_neg h1]
      by_cases h2 : cfg.scenario ∈ registryNames
      · have hne : cfg.scenario ≠ "" := by
          intro h0
          rw [h0] at h2
          exact absurd h2 (by decide)
        rw [if_pos hne, if_pos h2]
        simp [registryGet, h2]
      · rw [if_neg h2]
        by_cases hne : cfg.scenario ≠ ""
        · rw [if_pos hne]
          simp [registryGet, h2]
        · rw [if_neg hne]
  · unfold setScenario
    by_cases h1 : name = "custom"
    · rw [if_pos h1, if_pos h1]
    · rw [if_neg h1, if_neg h1]
      by_cases h2 : name ∈ registryNames
      · rw [if_pos h2]
        simp [registryGet, h2]
      · rw [if_neg h2]
        simp [registryGet, h2]

theorem updateConfig_scenario_swap_witness :
    (updateConfig
        ⟨false, ⟨10, 100, 10, 0, "jsonb", ""⟩, .builtin "jsonb", (100, 100), (10, 10)⟩
        ⟨10, 100, 10, 0, "wide", ""⟩).1.scenario
        = (if ("wide" : String) = "custom" then ScenarioRef.customScen ""
           else if ("wide" : String) ∈ registryNames then ScenarioRef.builtin "wide"
           else ScenarioRef.builtin "jsonb")
      ∧ setScenario "bogus" ""
        = (if ("bogus" : String) = "custom" then ScenarioRef.customScen ""
           else if ("bogus" : String) ∈ registryNames then ScenarioRef.builtin "bogus"
           else ScenarioRef.builtin "simple") :=
  updateConfig_scenario_swap
    ⟨false, ⟨10, 100, 10, 0, "jsonb", ""⟩, .builtin "jsonb", (100, 100), (10, 10)⟩
    ⟨10, 100, 10, 0, "wide", ""⟩ "bogus" "" (by left; decide)

/-! ## String helpers (Go `strings` package operations, on `List Char`) -/

/-- ASCII lowering of one character (`strings.ToLower` restricted to the
ASCII identifiers and type names the scenario deals with). -/
def lowCh (c : Char) : Char :=
  if 65 ≤ c.toNat ∧ c.toNat ≤ 90 then Char.ofNat (c.toNat + 32) else c

/-- Model of `strings.ToLower`. -/
def lowStr (s : String) : String :=
  String.mk (s.data.map lowCh)

/-- Bool test that `pat` begins the list (`strings.HasPrefix` on chars). -/
def listPre : List Char → List Char → Bool
  | [], _ => true
  | _ :: _, [] => false
  | a :: as, b :: bs => a = b && listPre as bs

/-- Bool test that `pat` occurs contiguously in `s`. -/
def listSub (pat : List Char) (s : List Char) : Bool :=
  match s with
  | [] => pat.isEmpty
  | _ :: t => listPre pat s || listSub pat t

/-- Model of `strings.Contains s pat`. -/
def hasSub (s pat : String) : Bool :=
  listSub pat.data s.data

/-- Model of `strings.HasPrefix s pat` (Go argument order). -/
def startsW (s pat : String) : Bool :=
  listPre pat.data s.data

/-! ## Dynamic (custom) scenario (`CustomScenario` in package `schema`) -/

/-- Column metadata discovered by introspection (`ColumnInfo`). -/
structure ColInfo where
  name : String
  dataType : String
  isNullable : Bool
  hasDefault : Bool
  isSerial : Bool
deriving DecidableEq, Repr

/-- Split a character list at the first `'.'`: everything before it and
everything after it (`strings.SplitN(name, ".", 2)`). -/
def splitAtDot : List Char → List Char × List Char
  | [] => ([], [])
  | c :: rest =>
      if c = '.' then ([], rest)
      else
        let p := splitAtDot rest
        (c :: p.1, p.2)

/-- Whether the declared table name contains a dot. -/
def hasDotB (s : String) : Bool :=
  s.data.any (fun c => c = '.')

/-- Schema and table resolution of `NewCustomScenario`: a name without a dot
lives in schema `"public"`; a dotted name is split at the first dot into
(schema, table). -/
def scenarioSchemaTable (tableName : String) : String × String :=
  if tableName ≠ "" ∧ hasDotB tableName then
    let p := splitAtDot tableName.data
    (String.mk p.1, String.mk p.2)
  else ("public", tableName)

lemma splitAtDot_eq_takeDrop (cs : List Char) (h : cs.any (fun c => c = '.') = true) :
    splitAtDot cs
      = (cs.takeWhile (fun c => c ≠ '.'), (cs.dropWhile (fun c => c ≠ '.')).tail) := by
  induction cs with
  | nil => simp at h
  | cons c rest ih =>
      by_cases hc : c = '.'
      · subst hc
        simp [splitAtDot, List.takeWhile, List.dropWhile]
      · have hrest : rest.any (fun c => c = '.') = true := by
          simp only [List.any_cons, Bool.or_eq_true, decide_eq_true_eq] at h
          rcases h with h | h
          · exact absurd h hc
          · exact h
        simp only [splitAtDot, if_neg hc, List.takeWhile, List.dropWhile]
        rw [ih hrest]
        simp [hc]

/-- C10: creating a custom scenario from a declared table name uses schema
`"public"` and the name itself when the name contains no dot, and splits
the name at the first dot into schema and table when it does. -/
theorem customScenario_schema_table_split (t : String) :
    (hasDotB t = false → scenarioSchemaTable t = ("public", t))
      ∧ (hasDotB t = true →
          scenarioSchemaTable t
            = (String.mk (t.data.takeWhile (fun c => c ≠ '.')),
               String.mk ((t.data.dropWhile (fun c => c ≠ '.')).tail))) := by
  constructor
  · intro h
    unfold scenarioSchemaTable
    rw [if_neg]
    rintro ⟨-, hdot⟩
    rw [h] at hdot
    exact Bool.false_ne_true hdot
  · intro h
    have hne : t ≠ "" := by
      intro h0
      subst h0
      simp [hasDotB] at h
    unfold scenarioSchemaTable
    rw [if_pos ⟨hne, h⟩, splitAtDot_eq_takeDrop t.data (by simpa [hasDotB] using h)]

theorem customScenario_schema_table_split_witness :
    scenarioSchemaTable "widgets" = ("public", "widgets")
      ∧ scenarioSchemaTable "test.widgets" = ("test", "widgets") :=
  ⟨(customScenario_schema_table_split "widgets").1 (by decide),
   (customScenario_schema_table_split "test.widgets").2 (by decide)⟩

/-- The insertable columns kept by `Initialize`: every discovered column
that is not serial/auto-generated, in discovery order. -/
def insertColsOf (cols : List ColInfo) : List ColInfo :=
  cols.filter (fun c => !c.isSerial)

/-- Positional placeholders `$1 .. $k` as built by the `Initialize` loop
(`fmt.Sprintf("$%d", i+1)` over the insert columns by index). -/
def placeholdersOf (k : Nat) : List String :=
  (List.range k).map (fun i => "$" ++ toString (i + 1))

/-- The insert statement built by `Initialize`:
`INSERT INTO <schema>.<table> (<cols>) VALUES (<$1..$k>) RETURNING <pk>::text`. -/
def mkInsertQuery (schemaName tblName pk : String) (icols : List ColInfo) : String :=
  "INSERT INTO " ++ schemaName ++ "." ++ tblName ++ " ("
    ++ String.intercalate ", " (icols.map (fun c => c.name))
    ++ ") VALUES ("
    ++ String.intercalate ", " (placeholdersOf icols.length)
    ++ ") RETURNING " ++ pk ++ "::text"

/-- The select statement built by `Initialize`:
`SELECT <all cols> FROM <schema>.<table> WHERE <pk> = $1`. -/
def mkSelectQuery (schemaName tblName pk : String) (cols : List ColInfo) : String :=
  "SELECT " ++ String.intercalate ", " (cols.map (fun c => c.name))
    ++ " FROM " ++ schemaName ++ "." ++ tblName
    ++ " WHERE " ++ pk ++ " = $1"

/-- In `Initialize` the insert statement is built only when there is at
least one insertable column; otherwise `insertQuery` stays empty. -/
def builtInsertQuery (schemaName tblName pk : String) (cols : List ColInfo) : String :=
  if (insertColsOf cols).length > 0
  then mkInsertQuery schemaName tblName pk (insertColsOf cols)
  else ""

/-- In `Initialize` the select statement is always built over all
columns. -/
def builtSelectQuery (schemaName tblName pk : String) (cols : List ColInfo) : String :=
  mkSelectQuery schemaName tblName pk cols

/-- The placeholder sequence written as the spec reads it: the list
`$1, $2, …, $k` grown from the right. -/
def specPlaceholders : Nat → List String
  | 0 => []
  | k + 1 => specPlaceholders k ++ ["$" ++ toString (k + 1)]

lemma placeholdersOf_eq_spec (k : Nat) : placeholdersOf k = specPlaceholders k := by
  induction k with
  | zero => rfl
  | succ k ih =>
      unfold placeholdersOf at ih ⊢
      rw [List.range_succ, List.map_append, ih]
      rfl

/-- The example table of end-to-end scenario 5 of the spec:
`test.widgets(id serial primary key, label text)`. -/
def widgetsCols : List ColInfo :=
  [⟨"id", "integer", false, true, true⟩, ⟨"label", "text", true, false, false⟩]

/-- C8: for a successfully initialized dynamic scenario with discovered
columns and primary key `pk`, the built insert statement lists exactly the
non-serial columns in discovery order with positional placeholders
`$1..$k` and ends with `RETURNING pk::text`, and the built select
statement lists all columns by name filtered by a single pk placeholder;
in particular for `test.widgets(id serial pk, label text)` the two
statements are exactly the ones of the spec. -/
theorem initBuiltQueries_shape (schemaName tblName pk : String) (cols : List ColInfo)
    (h : insertColsOf cols ≠ []) :
    builtInsertQuery schemaName tblName pk cols
        = "INSERT INTO " ++ schemaName ++ "." ++ tblName ++ " ("
          ++ String.intercalate ", " ((cols.filter (fun c => !c.isSerial)).map (fun c => c.name))
          ++ ") VALUES ("
          ++ String.intercalate ", " (specPlaceholders (cols.filter (fun c => !c.isSerial)).length)
          ++ ") RETURNING " ++ pk ++ "::text"
      ∧ builtSelectQuery schemaName tblName pk cols
        = "SELECT " ++ String.intercalate ", " (cols.map (fun c => c.name))
          ++ " FROM " ++ schemaName ++ "." ++ tblName ++ " WHERE " ++ pk ++ " = $1"
      ∧ builtInsertQuery "test" "widgets" "id" widgetsCols
        = "INSERT INTO test.widgets (label) VALUES ($1) RETURNING id::text"
      ∧ builtSelectQuery "test" "widgets" "id" widgetsCols
        = "SELECT id, label FROM test.widgets WHERE id = $1" := by
  refine ⟨?_, rfl, by decide, by decide⟩
  unfold builtInsertQuery
  rw [if_pos (by simpa [insertColsOf, List.length_pos] using h)]
  unfold mkInsertQuery insertColsOf
  rw [placeholdersOf_eq_spec]

theorem initBuiltQueries_shape_witness :
    builtInsertQuery "test" "widgets" "id" widgetsCols
        = "INSERT INTO test.widgets (label) VALUES ($1) RETURNING id::text"
      ∧ builtSelectQuery "test" "widgets" "id" widgetsCols
        = "SELECT id, label FROM test.widgets WHERE id = $1" :=
  ⟨(initBuiltQueries_shape "test" "widgets" "id" widgetsCols (by decide)).2.2.1,
   (initBuiltQueries_shape "test" "widgets" "id" widgetsCols (by decide)).2.2.2⟩

/-! ## Dynamic scenario id source and read/write id logic -/

/-- The id-source state of a `CustomScenario`: the integer upper bound
`maxID` and the sampled id cache `ids`. -/
structure IdSource where
  maxID : Int
  ids : List String
deriving DecidableEq, Repr

/-- Per `NewCustomScenario`, every scenario starts with `maxID = 100000` and an
empty id cache. -/
def IdSource.new : IdSource :=
  ⟨100000, []⟩

/-- The primary-key classification of `Initialize`: integer family when
the lowered type mentions `int` or `serial` and not `uuid`. -/
def isIntegerPKType (t : String) : Bool :=
  (hasSub (lowStr t) "int" || hasSub (lowStr t) "serial") && !(hasSub (lowStr t) "uuid")

/-- The id-source part of `Initialize`: the integer strategy loads
`MAX(pk)` (keeping the current bound when the table is empty, clamped to
at least 1); the cache strategy appends the seeded ids (the seed query is
limited to 10000 rows) and — as written in the source — leaves `maxID`
untouched. -/
def initIdSource (pkType : String) (dbMax : Option Int) (seedIds : List String)
    (s : IdSource) : IdSource :=
  if isIntegerPKType pkType then
    let m := match dbMax with | some v => v | none => s.maxID
    ⟨if m < 1 then 1 else m, s.ids⟩
  else
    ⟨s.maxID, s.ids ++ seedIds⟩

/-- What `ExecuteRead` does to pick its id: a cached id when the cache is
non-empty, else a random integer in `[1, maxID]` when `maxID > 0`, else no
query at all (return success).  `cacheIdx` and `draw` stand for the random
draws. -/
inductive ReadPick where
  | noQuery
  | cacheId (id : String)
  | rangeId (id : Int)
deriving DecidableEq, Repr

/-- The id selection of `CustomScenario.ExecuteRead`. -/
def readPick (s : IdSource) (cacheIdx : Nat) (draw : Int) : ReadPick :=
  if h : 0 < s.ids.length then .cacheId (s.ids.get ⟨cacheIdx % s.ids.length, Nat.mod_lt _ h⟩)
  else if 0 < s.maxID then .rangeId (draw % s.maxID + 1)
  else .noQuery

/-- The cache update of `CustomScenario.ExecuteWrite` after a successful
insert returned `newID`: the id is cached only when the cache is already
non-empty or `maxID = 0`; under capacity it is appended, at capacity it
replaces a random slot (`replIdx` stands for the draw). -/
def writeCacheUpdate (s : IdSource) (newID : String) (replIdx : Nat) : IdSource :=
  if newID = "" then s
  else if 0 < s.ids.length ∨ s.maxID = 0 then
    if s.ids.length < 10000 then ⟨s.maxID, s.ids ++ [newID]⟩
    else ⟨s.maxID, s.ids.set (replIdx % s.ids.length) newID⟩
  else s

/-- The id source of a freshly initialized dynamic scenario over an empty
table with a uuid primary key: the cache strategy is selected, the seed
finds no rows, and `maxID` keeps its constructor value 100000. -/
def emptyUuidSource : IdSource :=
  initIdSource "uuid" none [] IdSource.new

/-- C3: on the sampled-cache strategy with an empty cache the code does
not behave as specified.  After initializing over an empty uuid-keyed
table the cache is empty but `maxID` is still 100000, so `ExecuteRead`
falls into the integer-range branch and issues a query with a random
integer id instead of returning success without a query; and a subsequent
successful `ExecuteWrite` does not append the returned id to the cache
(the guard `len(ids) > 0 || maxID == 0` is false), so the cache never gets
populated.  The no-query branch would require `maxID ≤ 0`, which the
constructor and `Initialize` never produce for the cache strategy. -/
theorem customScenario_empty_cache_read_write_divergence :
    emptyUuidSource.ids = []
      ∧ emptyUuidSource.maxID = 100000
      ∧ readPick emptyUuidSource 0 0 = .rangeId 1
      ∧ readPick emptyUuidSource 0 0 ≠ .noQuery
      ∧ writeCacheUpdate emptyUuidSource "3f2b" 0 = emptyUuidSource := by
  refine ⟨rfl, rfl, by decide, by decide, by decide⟩

/-! ## Value generator (`GenerateValue` in package `schema`) -/

/-- The generator invoked by `GenerateValue`, as an abstract description:
which fake-data family is drawn and over which numeric range. -/
inductive GenSpec where
  | email
  | username
  | firstName
  | lastName
  | fullName
  | phone
  | city
  | country
  | stateName
  | zip
  | address
  | company
  | jobTitle
  | sentence (words : Nat)
  | url
  | ipv4
  | ipv6
  | userAgent
  | intNum (lo hi : Int)
  | boolean
  | floatNum (lo hi : Int)
  | uuidV
  | dateVal
  | dateFmt (fmt : String)
  | jsonObj
  | byteStr
  | intervalStr
deriving DecidableEq, Repr

/-- The column-name pattern dispatch of `GenerateValue` (first switch),
on the lowered column name. -/
def namePat (n : String) : Option GenSpec :=
  if hasSub n "email" then some .email
  else if hasSub n "username" || hasSub n "user_name" then some .username
  else if hasSub n "first_name" || hasSub n "firstname" then some .firstName
  else if hasSub n "last_name" || hasSub n "lastname" then some .lastName
  else if hasSub n "full_name" || hasSub n "fullname" || n = "name" then some .fullName
  else if hasSub n "phone" || hasSub n "cell" || hasSub n "mobile" then some .phone
  else if hasSub n "city" then some .city
  else if hasSub n "country" then some .country
  else if hasSub n "state" || hasSub n "province" then some .stateName
  else if hasSub n "zip" || hasSub n "postal" then some .zip
  else if hasSub n "address" then some .address
  else if hasSub n "company" || hasSub n "org" then some .company
  else if hasSub n "job" || hasSub n "title" then some .jobTitle
  else if hasSub n "bio" || hasSub n "description" then some (.sentence 10)
  else if hasSub n "url" || hasSub n "link" || hasSub n "website" then some .url
  else if hasSub n "ipv4" then some .ipv4
  else if hasSub n "ipv6" then some .ipv6
  else if hasSub n "user_agent" then some .userAgent
  else none

/-- The column-type dispatch of `GenerateValue` (second switch), on the
lowered type. -/
def typeGen (t : String) : GenSpec :=
  if startsW t "varchar" || startsW t "character varying" || t = "text" || startsW t "char" then
    (if hasSub t "(" then .sentence 3 else .sentence 5)
  else if t = "integer" || t = "int" || t = "int4" then .intNum 0 1000000
  else if t = "bigint" || t = "int8" then .intNum 0 1000000000
  else if t = "smallint" || t = "int2" then .intNum 0 32000
  else if t = "boolean" || t = "bool" then .boolean
  else if t = "real" || t = "float4" then .floatNum 0 1000
  else if t = "double precision" || t = "float8" then .floatNum 0 10000
  else if startsW t "numeric" || startsW t "decimal" then .floatNum 0 100000
  else if t = "uuid" then .uuidV
  else if t = "timestamp" || t = "timestamp without time zone" then .dateVal
  else if t = "timestamptz" || t = "timestamp with time zone" then .dateVal
  else if t = "date" then .dateFmt "2006-01-02"
  else if t = "time" || t = "time without time zone" then .dateFmt "15:04:05"
  else if t = "timetz" || t = "time with time zone" then .dateFmt "15:04:05-07:00"
  else if t = "jsonb" || t = "json" then .jsonObj
  else if t = "bytea" then .byteStr
  else if startsW t "interval" then .intervalStr
  else .sentence 5

/-- Model of `GenerateValue`: lower both arguments, try the name patterns first,
then dispatch on the type. -/
def generateValue (colType colName : String) : GenSpec :=
  match namePat (lowStr colName) with
  | some g => g
  | none => typeGen (lowStr colType)

/-- C9 counterexample: a `real` column whose name matches no pattern draws
from the uniform range 0–1,000, and a `numeric` column from 0–100,000 —
not from 0–10,000 as claimed; only `double precision`/`float8` use
0–10,000. -/
theorem generateValue_float_ranges_counterexample :
    generateValue "real" "v" = .floatNum 0 1000
      ∧ generateValue "real" "v" ≠ .floatNum 0 10000
      ∧ generateValue "numeric" "v" = .floatNum 0 100000
      ∧ generateValue "numeric" "v" ≠ .floatNum 0 10000 := by
  refine ⟨by decide, by decide, by decide, by decide⟩

/-- C9 (amended): for a column whose name matches no name pattern, the
float and numeric types draw from these uniform ranges: `real`/`float4`
from 0–1,000, `double precision`/`float8` from 0–10,000, and
`numeric`/`decimal` types (with or without precision arguments) from
0–100,000. -/
theorem generateValue_float_ranges (colName : String)
    (h : namePat (lowStr colName) = none) :
    generateValue "real" colName = .floatNum 0 1000
      ∧ generateValue "float4" colName = .floatNum 0 1000
      ∧ generateValue "double precision" colName = .floatNum 0 10000
      ∧ generateValue "float8" colName = .floatNum 0 10000
      ∧ generateValue "numeric" colName = .floatNum 0 100000
      ∧ generateValue "decimal" colName = .floatNum 0 100000
      ∧ generateValue "numeric(10,2)" colName = .floatNum 0 100000
      ∧ generateValue "decimal(8,2)" colName = .floatNum 0 100000 := by
  unfold generateValue
  rw [h]
  refine ⟨rfl, rfl, rfl, rfl, rfl, rfl, rfl, rfl⟩

theorem generateValue_float_ranges_witness :
    generateValue "real" "v" = .floatNum 0 1000
      ∧ generateValue "float4" "v" = .floatNum 0 1000
      ∧ generateValue "double precision" "v" = .floatNum 0 10000
      ∧ generateValue "float8" "v" = .floatNum 0 10000
      ∧ generateValue "numeric" "v" = .floatNum 0 100000
      ∧ generateValue "decimal" "v" = .floatNum 0 100000
      ∧ generateValue "numeric(10,2)" "v" = .floatNum 0 100000
      ∧ generateValue "decimal(8,2)" "v" = .floatNum 0 100000 :=
  generateValue_float_ranges "v" (by decide)

end Supafirehose
